import Mathlib

/-!
Verification of the capability-token authorization layer, the rendition/preview
selector and the cache persistence layer of the fotoware-http-get-by-id service.
Each definition is a shallow embedding of the correspondingly named Python
function; machine integers and timestamps are modelled as `Int` seconds,
fallible code returns `Except` with the HTTP status code as the error value.
-/

namespace Spec2Proof

/-- src/app/apptoken.py, class TokenAud: known local audiences for the JWT token. -/
inductive TokenAud where
  | NONE
  | PreviewAsset
  | RenderAsset
  | RenderAssetOriginal
  | RenderFullManifest
  | UpdateAssetMetadata
deriving DecidableEq, Repr

/-- The string value of each TokenAud member, as assigned in src/app/apptoken.py. -/
def TokenAud.val : TokenAud → String
  | .NONE => "zzz"
  | .PreviewAsset => "pre"
  | .RenderAsset => "rnd"
  | .RenderAssetOriginal => "ori"
  | .RenderFullManifest => "jld"
  | .UpdateAssetMetadata => "uid"

/-- Python enum lookup TokenAud(value): `none` models the ValueError raised when
the string is not a member value. -/
def TokenAud.ofString? (s : String) : Option TokenAud :=
  if s = "zzz" then some .NONE
  else if s = "pre" then some .PreviewAsset
  else if s = "rnd" then some .RenderAsset
  else if s = "ori" then some .RenderAssetOriginal
  else if s = "jld" then some .RenderFullManifest
  else if s = "uid" then some .UpdateAssetMetadata
  else none

/-- The JWT payload claims used by src/app/apptoken.py: sub, aud, iat, exp.
A claim missing from the payload dict is `none`; timestamps are seconds. -/
structure Claims where
  sub : Option String
  aud : Option String
  iat : Option Int
  exp : Option Int
deriving DecidableEq, Repr

/-- A JWT as the external PyJWT library presents it to this code: its payload
together with whether its HS256 signature verifies under the configured
JWT_SECRET. PyJWT itself is not part of this repository; it is modelled by the
contract src/app/apptoken.py relies on (signature and time validation). -/
structure Token where
  claims : Claims
  sigOk : Bool
deriving DecidableEq, Repr

/-- The 30 second leeway of src/app/apptoken.py, function decode. -/
def leeway : Int := 30

/-- src/app/apptoken.py, function decode: PyJWT verifies the HS256 signature and
the exp/iat claims with 30 s leeway; on any PyJWTError the function returns the
empty dict, modelled as the all-`none` Claims. -/
def decode (now : Int) (t : Token) : Claims :=
  if t.sigOk
      && (match t.claims.exp with | some e => decide (now - leeway ≤ e) | none => true)
      && (match t.claims.iat with | some i => decide (i ≤ now + leeway) | none => true)
  then t.claims
  else ⟨none, none, none, none⟩

/-- Python `":" in s`, on the character list of `s`. -/
def containsColon (l : List Char) : Bool := l.any (fun c => c = ':')

/-- Python `s.split(":", maxsplit=1)` when `":" in s`: the part before the first
colon, and the rest. `none` models the case of no colon, where tuple unpacking
of the one-element split result would raise ValueError. -/
def breakAtColon : List Char → Option (List Char × List Char)
  | [] => none
  | c :: cs =>
    if c = ':' then some ([], cs)
    else match breakAtColon cs with
      | none => none
      | some (a, b) => some (c :: a, b)

/-- HTTP status codes, the error values of the embedded fallible functions. -/
abbrev Http := Nat

/-- src/app/apptoken.py, function sub_aud_dur_claims: returns the token's
subject, audience, validity duration (exp minus iat, seconds) and raw claims;
every exception inside the try block becomes HTTPException(403). -/
def sub_aud_dur_claims (now : Int) (t : Token) :
    Except Http (String × TokenAud × Int × Claims) := do
  let claims := decode now t
  let p ←
    if containsColon (claims.sub.getD ":").data && claims.aud.isNone then
      -- the old parsing code put colon-separated aud and sub in the sub claim
      match breakAtColon (claims.sub.getD "zzz:").data with
      | none => throw 403
      | some (audstr, substr) =>
        match TokenAud.ofString? ⟨audstr⟩ with
        | none => throw 403
        | some aud => pure ((⟨substr⟩ : String), aud)
    else
      match (match claims.aud with
              | some a => TokenAud.ofString? a
              | none => some TokenAud.NONE) with
      | none => throw 403
      | some aud => pure (claims.sub.getD "", aud)
  match claims.iat, claims.exp with
  | some iat, some exp => pure (p.1, p.2, exp - iat, claims)
  | _, _ => throw 403

/-- src/app/apptoken.py, function tokencontents: issues a signed token with
iat from a first clock read and exp from a second clock read plus the requested
duration (the Python source calls datetime.now twice). The token is signed with
the configured secret, so its signature verifies. -/
def tokencontents (sub : String) (aud : TokenAud) (dur : Int) (now1 now2 : Int) : Token :=
  ⟨⟨some sub, some aud.val, some now1, some (now2 + dur)⟩, true⟩

/-- src/app/config.py: first value of the TOKEN_MAX_DURATION default
"900 31622400", in seconds. -/
def TOKEN_MAX_DURATION_SHORT : Int := 900

/-- src/app/config.py: second value of the TOKEN_MAX_DURATION default
"900 31622400", in seconds. -/
def TOKEN_MAX_DURATION_LONG : Int := 31622400

/-- src/app/resource_identifier.py, function getidentifier: 401 unless the
resource URL starts with the canonical base (the parameter `base` embeds the
CANONICAL_HOST_BASE configuration value); otherwise strips that base. -/
def getidentifier (base fromresource : String) : Except Http String :=
  if base.data.isPrefixOf fromresource.data
  then pure ⟨fromresource.data.drop base.data.length⟩
  else throw 401

/-- Configuration of src/app/apptoken.py, QueryHeaderAuth.__init__. -/
structure QueryHeaderAuth where
  auth_is_required : Bool
  aud : TokenAud
  maxdur : Int

/-- The try block of QueryHeaderAuth.__call__ (src/app/apptoken.py): resolve
the token (Authorization header takes precedence over the token query
parameter), extract its claims, derive the identifier from the resource query
parameter (absent models as the empty string), then require subject, audience
and duration to pass. -/
def QueryHeaderAuth.callInner (g : QueryHeaderAuth) (base : String) (now : Int)
    (httpcreds tokenQ : Option Token) (resource : Option String) : Except Http Bool := do
  let tc ←
    match httpcreds with
    | some c => pure c
    | none =>
      match tokenQ with
      | some t => pure t
      | none => throw 401
  let (sub, aud, dur, _) ← sub_aud_dur_claims now tc
  let identifier ← getidentifier base (resource.getD "")
  if identifier = sub ∧ g.aud = aud ∧ dur ≤ g.maxdur then pure true
  else throw 403

/-- src/app/apptoken.py, QueryHeaderAuth.__call__: an HTTPException raised in
the try block is re-raised when authorization is required, and turned into the
return value False otherwise. -/
def QueryHeaderAuth.call (g : QueryHeaderAuth) (base : String) (now : Int)
    (httpcreds tokenQ : Option Token) (resource : Option String) : Except Http Bool :=
  match g.callInner base now httpcreds tokenQ resource with
  | .ok b => .ok b
  | .error e => if g.auth_is_required then .error e else .ok false

/-- A rendition record as read by src/app/fotoware/renditions.py: href, an
optional profile name (null in the upstream JSON models as `none`), the
original flag and the pixel dimensions. -/
structure AssetRendition where
  href : String
  profile : Option String
  original : Bool
  width : Int
  height : Int
deriving DecidableEq, Repr

/-- src/app/fotoware/renditions.py, function find_rendition: successive lazy
filters over the input list (profile and original only when supplied), then
`next(qualified, None)`, i.e. the head of the filtered list. -/
def find_rendition (data : List AssetRendition) (profile : Option String)
    (size width height : Int) (original : Option Bool) : Option AssetRendition :=
  let q1 : List AssetRendition := match profile with
    | some p => data.filter (fun i => i.profile == some p)
    | none => data
  let q2 : List AssetRendition := match original with
    | some o => q1.filter (fun i => o == i.original)
    | none => q1
  let q3 := q2.filter (fun i => decide (size ≤ min i.height i.width))
  let q4 := q3.filter (fun i => decide (width ≤ i.width))
  let q5 := q4.filter (fun i => decide (height ≤ i.height))
  q5.head?

/-- A preview record as read by src/app/previews.py: href, the size field the
upstream reports, pixel dimensions and the square flag. -/
structure Preview where
  href : String
  size : Int
  width : Int
  height : Int
  square : Bool
deriving DecidableEq, Repr

/-- The Python StopIteration exception, raised by `next` on an empty iterator. -/
inductive PyStop where
  | stopIteration
deriving DecidableEq, Repr

/-- src/app/previews.py, function find_appropriate_preview: strict `<` filters
on the record's own size field and on width and height, the square filter only
when supplied, then `next(qualified)["href"]` with no default, so an empty
result raises StopIteration (modelled as the error case). -/
def find_appropriate_preview (data : List Preview) (min_size min_width min_height : Int)
    (must_be_square : Option Bool) : Except PyStop String :=
  let q1 := data.filter (fun i => decide (min_size < i.size))
  let q2 := q1.filter (fun i => decide (min_width < i.width))
  let q3 := q2.filter (fun i => decide (min_height < i.height))
  let q4 : List Preview := match must_be_square with
    | some b => q3.filter (fun i => i.square == b)
    | none => q3
  match q4.head? with
  | some p => .ok p.href
  | none => .error .stopIteration

/-- src/app/renderers/reprs.py, function filerendition, lines 32 to 34: the
selection step answers a `None` from find_rendition with HTTPException(400). -/
def filerendition_select (renditions : List AssetRendition) (profile : Option String)
    (size width height : Int) (original : Option Bool) : Except Http AssetRendition :=
  match find_rendition renditions profile size width height original with
  | none => throw 400
  | some r => pure r

/-- The asset fields read by src/app/persistence.py, function key. -/
structure Asset where
  physicalFileId : String
  href : String
  modified : String
deriving DecidableEq, Repr

/-- src/app/persistence.py, function key: physicalFileId-or-href concatenated
with the modified stamp; Python `or` falls back to href exactly when
physicalFileId is falsy, i.e. the empty string. -/
def key (asset : Asset) : String :=
  (if asset.physicalFileId = "" then asset.href else asset.physicalFileId) ++ asset.modified

/-- The redis exceptions distinguished by src/app/persistence.py, try_redis:
ConnectionError is retried, every other RedisError is fatal at once. -/
inductive RedisErr where
  | conn
  | other
deriving DecidableEq, Repr

/-- The while loop of src/app/persistence.py, try_redis: `call n` is the
outcome of the store operation on its n-th invocation (counted from 0); the
retries counter decrements on each ConnectionError and a ConnectionError at
counter 0 or any other RedisError becomes HTTPException(500). -/
def try_redis_run (call : Nat → Except RedisErr α) : Nat → Nat → Except Http α
  | 0, attempt =>
    match call attempt with
    | .ok v => .ok v
    | .error .other => .error 500
    | .error .conn => .error 500
  | r + 1, attempt =>
    match call attempt with
    | .ok v => .ok v
    | .error .other => .error 500
    | .error .conn => try_redis_run call r (attempt + 1)

/-- src/app/persistence.py, decorator try_redis, starting at the first call. -/
def try_redis (num_retries : Nat) (call : Nat → Except RedisErr α) : Except Http α :=
  try_redis_run call num_retries 0

/-- src/app/persistence.py: the 0.5 second sleep between retries, in ms. -/
def RETRY_BACKOFF_MS : Nat := 500

namespace persistence

/-- src/app/persistence.py, function set: CACHE.set wrapped by try_redis with
its default num_retries of 5; `cacheSet n` is the outcome of the n-th attempted
write to the store. -/
def set (cacheSet : Nat → Except RedisErr (Option Bool)) : Except Http (Option Bool) :=
  try_redis 5 cacheSet

/-- src/app/persistence.py, function get: CACHE.get wrapped by try_redis with
its default num_retries of 5, then the default fallback for a missing value
(the default parameter is always None). -/
def get (cacheGet : Nat → Except RedisErr (Option α)) : Except Http (Option α) :=
  (try_redis 5 cacheGet).map (fun value => match value with | some v => some v | none => none)

end persistence

/-! Helper lemmas. -/

theorem head?_filter_eq_find? (p : α → Bool) (l : List α) :
    (l.filter p).head? = l.find? p := by
  induction l with
  | nil => rfl
  | cons a l ih =>
    cases h : p a with
    | true => simp [List.filter_cons, h, List.find?_cons]
    | false => simp [List.filter_cons, h, List.find?_cons, ih]

theorem find?_congr (p q : α → Bool) (l : List α) (h : ∀ a, p a = q a) :
    l.find? p = l.find? q := by
  have hpq : p = q := funext h
  rw [hpq]

theorem decide_min_comm (x y z : Int) : decide (z ≤ min x y) = decide (z ≤ min y x) :=
  decide_eq_decide.mpr (by rw [min_comm])

/-- The qualification test for renditions exactly as claim C2 words it: the
size constraint holds when the shorter side, min(width, height), is at least
the requested size; width and height are inclusive lower bounds; profile and
original are exact-match filters when specified, ignored when unspecified. -/
def claimed_rendition_ok (profile : Option String) (size width height : Int)
    (original : Option Bool) (r : AssetRendition) : Bool :=
  (match profile with | some p => r.profile == some p | none => true)
  && (match original with | some o => o == r.original | none => true)
  && decide (size ≤ min r.width r.height)
  && decide (width ≤ r.width)
  && decide (height ≤ r.height)

/-- The qualification test for previews exactly as claim C2 words it. -/
def claimed_preview_ok (min_size min_width min_height : Int)
    (must_be_square : Option Bool) (p : Preview) : Bool :=
  decide (min_size ≤ min p.width p.height)
  && decide (min_width ≤ p.width)
  && decide (min_height ≤ p.height)
  && (match must_be_square with | some b => p.square == b | none => true)

/-- The qualification test that src/app/previews.py actually applies: strict
bounds, and the record's own size field instead of the shorter side. -/
def strict_preview_ok (min_size min_width min_height : Int)
    (must_be_square : Option Bool) (p : Preview) : Bool :=
  decide (min_size < p.size)
  && decide (min_width < p.width)
  && decide (min_height < p.height)
  && (match must_be_square with | some b => p.square == b | none => true)

theorem find_rendition_eq_find? (data : List AssetRendition) (profile : Option String)
    (size width height : Int) (original : Option Bool) :
    find_rendition data profile size width height original
      = data.find? (claimed_rendition_ok profile size width height original) := by
  cases profile <;> cases original <;>
    · simp only [find_rendition, List.filter_filter, head?_filter_eq_find?]
      apply find?_congr
      intro a
      simp [claimed_rendition_ok, decide_min_comm, Bool.and_comm, Bool.and_left_comm,
        Bool.and_assoc]

theorem find_appropriate_preview_eq_find? (data : List Preview)
    (min_size min_width min_height : Int) (must_be_square : Option Bool) :
    find_appropriate_preview data min_size min_width min_height must_be_square
      = match data.find? (strict_preview_ok min_size min_width min_height must_be_square) with
        | some p => .ok p.href
        | none => .error .stopIteration := by
  cases must_be_square <;>
    · simp only [find_appropriate_preview, List.filter_filter, head?_filter_eq_find?]
      rw [find?_congr _ (strict_preview_ok min_size min_width min_height _) _ ?_]
      intro a
      simp [strict_preview_ok, Bool.and_comm, Bool.and_left_comm, Bool.and_assoc]

/-! Claim C2. -/

/-- Claim C2 as stated is false for the preview selector of src/app/previews.py:
the single record (href "a", size 5, width 5, height 5, square false) satisfies
every supplied constraint under the claimed semantics with min_width 5 (an
inclusive lower bound met with equality), yet find_appropriate_preview finds no
match, because the code applies a strict bound. -/
theorem C2_counterexample :
    claimed_preview_ok 0 5 0 none ⟨"a", 5, 5, 5, false⟩ = true
      ∧ find_appropriate_preview [⟨"a", 5, 5, 5, false⟩] 0 5 0 none
          = .error .stopIteration :=
  ⟨by decide, by rfl⟩

/-- C2, amended: find_rendition returns the first record, in the list's original
order, that satisfies all supplied constraints, with exactly the claimed
constraint semantics (min-side size test, inclusive width and height bounds,
exact-match profile and original filters, none when nothing qualifies);
find_appropriate_preview also takes the first record in original order, but
under strict lower bounds with the size constraint tested against the record's
own size field, and it raises StopIteration instead of returning a no-match
value. -/
theorem C2_selector_first_match :
    (∀ (data : List AssetRendition) (profile : Option String) (size width height : Int)
        (original : Option Bool),
        find_rendition data profile size width height original
          = data.find? (claimed_rendition_ok profile size width height original))
    ∧ (∀ (data : List Preview) (min_size min_width min_height : Int)
        (must_be_square : Option Bool),
        find_appropriate_preview data min_size min_width min_height must_be_square
          = match data.find? (strict_preview_ok min_size min_width min_height must_be_square) with
            | some p => .ok p.href
            | none => .error .stopIteration) :=
  ⟨find_rendition_eq_find?, find_appropriate_preview_eq_find?⟩

/-! Claim C5. -/

/-- Claim C5 as stated is false for src/app/previews.py: on an over-constrained
request (here the empty preview list, on which no record can qualify)
find_appropriate_preview raises StopIteration, an exception no caller in the
repository catches, instead of yielding a client-error (400) outcome. -/
theorem C5_counterexample :
    find_appropriate_preview [] 0 0 0 none = .error .stopIteration := rfl

/-- C5, amended: a no-match outcome of find_rendition is answered by
filerendition with HTTPException(400) (and a match is served), while
find_appropriate_preview raises StopIteration whenever no record qualifies
under its own strict test. -/
theorem C5_no_match_handling :
    (∀ (data : List AssetRendition) (profile : Option String) (size width height : Int)
        (original : Option Bool),
        (find_rendition data profile size width height original = none →
          filerendition_select data profile size width height original = .error 400)
        ∧ ∀ r, find_rendition data profile size width height original = some r →
            filerendition_select data profile size width height original = .ok r)
    ∧ (∀ (data : List Preview) (min_size min_width min_height : Int)
        (must_be_square : Option Bool),
        data.find? (strict_preview_ok min_size min_width min_height must_be_square) = none →
        find_appropriate_preview data min_size min_width min_height must_be_square
          = .error .stopIteration) := by
  constructor
  · intro data profile size width height original
    constructor
    · intro h
      simp only [filerendition_select, h]
      rfl
    · intro r h
      simp only [filerendition_select, h]
      rfl
  · intro data min_size min_width min_height must_be_square h
    rw [find_appropriate_preview_eq_find?, h]

theorem C5_witness :
    filerendition_select [] none 0 0 0 none = .error 400
      ∧ find_appropriate_preview ([] : List Preview) 0 0 0 none = .error .stopIteration :=
  ⟨(C5_no_match_handling.1 [] none 0 0 0 none).1 rfl,
   C5_no_match_handling.2 [] 0 0 0 none rfl⟩

/-! Claim C4. -/

/-- Claim C4 as stated is false: the two distinct assets (physicalFileId "ab",
modified "c") and (physicalFileId "a", modified "bc") concatenate to the same
cache key "abc", so two distinct (asset, kind, variant) triples produce the
same key; the key function moreover reads only the asset, never the
interaction kind or the variant. -/
theorem C4_counterexample :
    key ⟨"ab", "x", "c"⟩ = key ⟨"a", "y", "bc"⟩
      ∧ (⟨"ab", "x", "c"⟩ : Asset) ≠ ⟨"a", "y", "bc"⟩ :=
  ⟨by decide, by decide⟩

/-- C4, amended: key derivation is deterministic and changing only the asset's
modification stamp always changes the key (and conversely), but distinct
(asset, kind, variant) triples can collide: the key ignores kind and variant
and plain concatenation permits boundary-shift collisions between assets. -/
theorem C4_key_modification_sensitive (pfid href m1 m2 : String) :
    key ⟨pfid, href, m1⟩ = key ⟨pfid, href, m2⟩ ↔ m1 = m2 := by
  constructor
  · intro h
    have hd := congrArg String.data h
    simp only [key, String.data_append] at hd
    exact String.ext (List.append_cancel_left hd)
  · intro h
    rw [h]

/-! Claim C6. -/

/-- C6: a token whose signature does not verify under the configured key always
fails claim extraction with HTTPException(403), whatever claims it carries:
decode yields the empty payload, and the subsequent iat lookup fails. -/
theorem C6_bad_signature_403 (now : Int) (c : Claims) :
    sub_aud_dur_claims now ⟨c, false⟩ = .error 403 := rfl

/-! Claim C10. -/

/-- C10: token issuance checks no ceiling: for every requested duration, even
one exceeding TOKEN_MAX_DURATION_LONG, tokencontents produces a token whose
exp and iat claims differ by at least that duration (the two clock reads are
monotone). -/
theorem C10_issuance_no_ceiling (sub : String) (aud : TokenAud) (dur : Int)
    (now1 now2 : Int) (hmono : now1 ≤ now2) :
    ∃ i e, (tokencontents sub aud dur now1 now2).claims.iat = some i
      ∧ (tokencontents sub aud dur now1 now2).claims.exp = some e
      ∧ dur ≤ e - i :=
  ⟨now1, now2 + dur, rfl, rfl, by omega⟩

theorem C10_witness :
    TOKEN_MAX_DURATION_LONG < 40000000
      ∧ ∃ i e, (tokencontents "a" .RenderFullManifest 40000000 5 5).claims.iat = some i
          ∧ (tokencontents "a" .RenderFullManifest 40000000 5 5).claims.exp = some e
          ∧ (40000000 : Int) ≤ e - i :=
  ⟨by decide, C10_issuance_no_ceiling "a" .RenderFullManifest 40000000 5 5 le_rfl⟩

theorem exceptBind_ok (x : α) (f : α → Except ε β) :
    (Except.ok x : Except ε α) >>= f = f x := rfl

theorem exceptBind_err (e : ε) (f : α → Except ε β) :
    (Except.error e : Except ε α) >>= f = .error e := rfl

/-- Evaluation of the gate's try block when the token and the identifier both
resolve: only the final subject, audience and duration test remains. -/
theorem callInner_eval (g : QueryHeaderAuth) (base : String) (now : Int)
    (t : Token) (tokenQ : Option Token) (resource : Option String)
    (sub : String) (aud : TokenAud) (dur : Int) (c : Claims) (identifier : String)
    (hclaims : sub_aud_dur_claims now t = .ok (sub, aud, dur, c))
    (hid : getidentifier base (resource.getD "") = .ok identifier) :
    g.callInner base now (some t) tokenQ resource
      = if identifier = sub ∧ g.aud = aud ∧ dur ≤ g.maxdur then .ok true
        else .error 403 := by
  show sub_aud_dur_claims now t >>= _ = _
  rw [hclaims, exceptBind_ok]
  show getidentifier base (resource.getD "") >>= _ = _
  rw [hid, exceptBind_ok]
  rfl

/-- Evaluation of the gate's try block when claim extraction raises. -/
theorem callInner_claims_err (g : QueryHeaderAuth) (base : String) (now : Int)
    (t : Token) (tokenQ : Option Token) (resource : Option String) (e : Http)
    (hclaims : sub_aud_dur_claims now t = .error e) :
    g.callInner base now (some t) tokenQ resource = .error e := by
  show sub_aud_dur_claims now t >>= _ = _
  rw [hclaims, exceptBind_err]

/-- Evaluation of the gate's try block when the identifier derivation raises. -/
theorem callInner_id_err (g : QueryHeaderAuth) (base : String) (now : Int)
    (t : Token) (tokenQ : Option Token) (resource : Option String)
    (sub : String) (aud : TokenAud) (dur : Int) (c : Claims) (e : Http)
    (hclaims : sub_aud_dur_claims now t = .ok (sub, aud, dur, c))
    (hid : getidentifier base (resource.getD "") = .error e) :
    g.callInner base now (some t) tokenQ resource = .error e := by
  show sub_aud_dur_claims now t >>= _ = _
  rw [hclaims, exceptBind_ok]
  show getidentifier base (resource.getD "") >>= _ = _
  rw [hid, exceptBind_err]

/-- The except handler of QueryHeaderAuth.__call__ when the try block returns. -/
theorem call_ok (g : QueryHeaderAuth) (base : String) (now : Int)
    (httpcreds tokenQ : Option Token) (resource : Option String) (b : Bool)
    (h : g.callInner base now httpcreds tokenQ resource = .ok b) :
    g.call base now httpcreds tokenQ resource = .ok b := by
  unfold QueryHeaderAuth.call
  rw [h]

/-- The except handler of QueryHeaderAuth.__call__ when the try block raises:
re-raise when authorization is required, the return value False otherwise. -/
theorem call_err (g : QueryHeaderAuth) (base : String) (now : Int)
    (httpcreds tokenQ : Option Token) (resource : Option String) (e : Http)
    (h : g.callInner base now httpcreds tokenQ resource = .error e) :
    g.call base now httpcreds tokenQ resource
      = if g.auth_is_required then .error e else .ok false := by
  unfold QueryHeaderAuth.call
  rw [h]

theorem getidentifier_err (base r : String)
    (h : base.data.isPrefixOf r.data = false) : getidentifier base r = .error 401 := by
  unfold getidentifier
  rw [if_neg]
  · rfl
  · simp [h]

/-! Claim C1. -/

/-- C1: when the presented token decodes, its subject equals the identifier
derived from the request's resource parameter and its audience equals the
gate's configured audience, the gate authorizes exactly when the token's
validity duration does not exceed the configured ceiling; a strictly longer
duration is rejected, with 403 when authorization is mandatory and False
when optional. -/
theorem C1_gate_duration_ceiling (g : QueryHeaderAuth) (base : String) (now : Int)
    (t : Token) (tokenQ : Option Token) (resource : Option String)
    (sub : String) (aud : TokenAud) (dur : Int) (c : Claims)
    (hclaims : sub_aud_dur_claims now t = .ok (sub, aud, dur, c))
    (hsub : getidentifier base (resource.getD "") = .ok sub)
    (haud : g.aud = aud) :
    (g.call base now (some t) tokenQ resource = .ok true ↔ dur ≤ g.maxdur)
    ∧ (g.maxdur < dur →
        g.call base now (some t) tokenQ resource
          = if g.auth_is_required then .error 403 else .ok false) := by
  constructor
  · have hinner := callInner_eval g base now t tokenQ resource sub aud dur c sub hclaims hsub
    by_cases hd : dur ≤ g.maxdur
    · rw [if_pos ⟨rfl, haud, hd⟩] at hinner
      rw [call_ok g base now (some t) tokenQ resource true hinner]
      simp [hd]
    · rw [if_neg (fun hc => hd hc.2.2)] at hinner
      rw [call_err g base now (some t) tokenQ resource 403 hinner]
      cases hr : g.auth_is_required <;> simp [hr, hd]
  · intro hlt
    have hinner := callInner_eval g base now t tokenQ resource sub aud dur c sub hclaims hsub
    rw [if_neg (fun hc => absurd hc.2.2 (by omega))] at hinner
    exact call_err g base now (some t) tokenQ resource 403 hinner

theorem C1_witness :
    QueryHeaderAuth.call ⟨true, .RenderAssetOriginal, 900⟩ "https://h/" 1000
        (some (tokencontents "abc" .RenderAssetOriginal 500 1000 1000)) none
        (some "https://h/abc") = .ok true :=
  (C1_gate_duration_ceiling ⟨true, .RenderAssetOriginal, 900⟩ "https://h/" 1000
      (tokencontents "abc" .RenderAssetOriginal 500 1000 1000) none (some "https://h/abc")
      "abc" .RenderAssetOriginal 500 ⟨some "abc", some "ori", some 1000, some 1500⟩
      rfl rfl rfl).1.mpr (by decide)

/-! Claim C7. -/

/-- C7: each unauthorized outcome (no token in query or header, claim
extraction failure, or a failed subject, audience or duration test) leads to a
raised 401/403 when the gate is mandatory and to the return value False when
it is optional; an authorized outcome returns True in both modes. -/
theorem C7_gate_required_vs_optional (g : QueryHeaderAuth) (base : String) (now : Int)
    (tokenQ : Option Token) (resource : Option String) :
    (g.call base now none none resource
        = if g.auth_is_required then .error 401 else .ok false)
    ∧ (∀ t : Token, sub_aud_dur_claims now t = .error 403 →
        g.call base now (some t) tokenQ resource
          = if g.auth_is_required then .error 403 else .ok false)
    ∧ (∀ (t : Token) (sub : String) (aud : TokenAud) (dur : Int) (c : Claims)
        (identifier : String),
        sub_aud_dur_claims now t = .ok (sub, aud, dur, c) →
        getidentifier base (resource.getD "") = .ok identifier →
        ¬(identifier = sub ∧ g.aud = aud ∧ dur ≤ g.maxdur) →
        g.call base now (some t) tokenQ resource
          = if g.auth_is_required then .error 403 else .ok false)
    ∧ (∀ (t : Token) (sub : String) (aud : TokenAud) (dur : Int) (c : Claims)
        (identifier : String),
        sub_aud_dur_claims now t = .ok (sub, aud, dur, c) →
        getidentifier base (resource.getD "") = .ok identifier →
        identifier = sub → g.aud = aud → dur ≤ g.maxdur →
        g.call base now (some t) tokenQ resource = .ok true) := by
  refine ⟨?_, ?_, ?_, ?_⟩
  · exact call_err g base now none none resource 401 rfl
  · intro t h
    exact call_err g base now (some t) tokenQ resource 403
      (callInner_claims_err g base now t tokenQ resource 403 h)
  · intro t sub aud dur c identifier hclaims hid hcond
    have hinner := callInner_eval g base now t tokenQ resource sub aud dur c identifier
      hclaims hid
    rw [if_neg hcond] at hinner
    exact call_err g base now (some t) tokenQ resource 403 hinner
  · intro t sub aud dur c identifier hclaims hid h1 h2 h3
    have hinner := callInner_eval g base now t tokenQ resource sub aud dur c identifier
      hclaims hid
    rw [if_pos ⟨h1, h2, h3⟩] at hinner
    exact call_ok g base now (some t) tokenQ resource true hinner

theorem C7_witness :
    QueryHeaderAuth.call ⟨true, .NONE, 900⟩ "b" 0
        (some ⟨⟨none, none, none, none⟩, false⟩) none none = .error 403 := by
  have h := (C7_gate_required_vs_optional ⟨true, .NONE, 900⟩ "b" 0 none none).2.1
    ⟨⟨none, none, none, none⟩, false⟩ rfl
  simpa using h

/-! Claim C9. -/

/-- C9: the gate checks the token's subject against the identifier derived
from the request's resource query parameter; whenever that parameter (absent
models as the empty string) does not start with the configured canonical base,
the gate rejects with 401 or returns False, even for a token that decodes
successfully with any subject, audience and duration. -/
theorem C9_resource_guard (g : QueryHeaderAuth) (base : String) (now : Int)
    (t : Token) (tokenQ : Option Token)
    (sub : String) (aud : TokenAud) (dur : Int) (c : Claims)
    (hclaims : sub_aud_dur_claims now t = .ok (sub, aud, dur, c)) :
    (∀ resource : Option String,
        base.data.isPrefixOf (resource.getD "").data = false →
        g.call base now (some t) tokenQ resource
          = if g.auth_is_required then .error 401 else .ok false)
    ∧ (base ≠ "" →
        g.call base now (some t) tokenQ none
          = if g.auth_is_required then .error 401 else .ok false) := by
  have main : ∀ resource : Option String,
      base.data.isPrefixOf (resource.getD "").data = false →
      g.call base now (some t) tokenQ resource
        = if g.auth_is_required then .error 401 else .ok false := by
    intro resource hres
    exact call_err g base now (some t) tokenQ resource 401
      (callInner_id_err g base now t tokenQ resource sub aud dur c 401 hclaims
        (getidentifier_err base (resource.getD "") hres))
  refine ⟨main, fun hbase => main none ?_⟩
  cases hd : base.data with
  | nil => exact absurd (String.ext hd) hbase
  | cons ch l => rfl

theorem C9_witness :
    QueryHeaderAuth.call ⟨true, .RenderAssetOriginal, 900⟩ "https://h/" 1000
        (some (tokencontents "abc" .RenderAssetOriginal 500 1000 1000)) none
        (some "evil") = .error 401 := by
  have h := (C9_resource_guard ⟨true, .RenderAssetOriginal, 900⟩ "https://h/" 1000
      (tokencontents "abc" .RenderAssetOriginal 500 1000 1000) none
      "abc" .RenderAssetOriginal 500 ⟨some "abc", some "ori", some 1000, some 1500⟩
      rfl).1 (some "evil") (by decide)
  simpa using h

/-! Claim C3. -/

theorem decode_valid (now : Int) (s a : Option String) (i e : Int)
    (hi : i ≤ now + leeway) (he : now - leeway ≤ e) :
    decode now ⟨⟨s, a, some i, some e⟩, true⟩ = ⟨s, a, some i, some e⟩ := by
  unfold decode
  simp [hi, he]

theorem containsColon_append_colon (a b : List Char) :
    containsColon (a ++ ':' :: b) = true := by
  simp [containsColon]

theorem breakAtColon_append (a b : List Char) (h : containsColon a = false) :
    breakAtColon (a ++ ':' :: b) = some (a, b) := by
  induction a with
  | nil => simp [breakAtColon]
  | cons c cs ih =>
    have hcc : (decide (c = ':') || containsColon cs) = false := by
      simpa [containsColon, List.any_cons] using h
    rw [Bool.or_eq_false_iff] at hcc
    have hne : ¬ (c = ':') := by simpa using hcc.1
    have ih2 : breakAtColon (List.append cs (':' :: b)) = some (cs, b) := ih hcc.2
    simp only [List.cons_append, breakAtColon, if_neg hne, ih2]

theorem val_noColon (a : TokenAud) : containsColon a.val.data = false := by
  cases a <;> decide

theorem ofString?_val (a : TokenAud) : TokenAud.ofString? a.val = some a := by
  cases a <;> decide

theorem combined_data (a : TokenAud) (subject : String) :
    (a.val ++ ":" ++ subject).data = a.val.data ++ ':' :: subject.data := by
  simp [String.data_append]

theorem string_eta (s : String) : (⟨s.data⟩ : String) = s := rfl

/-- C3: a legacy token carrying the combined "audience:subject" string in its
sub claim and no aud claim, and a modern token carrying sub and aud claims
separately, extract to identical (subject, audience) pairs (and identical
durations) through sub_aud_dur_claims, for every subject (colons in the
subject included) and every audience of the enum. -/
theorem C3_legacy_modern_agree (subject : String) (aud : TokenAud) (iat exp now : Int)
    (hiat : iat ≤ now + leeway) (hexp : now - leeway ≤ exp) :
    sub_aud_dur_claims now ⟨⟨some (aud.val ++ ":" ++ subject), none, some iat, some exp⟩, true⟩
        = .ok (subject, aud, exp - iat,
            ⟨some (aud.val ++ ":" ++ subject), none, some iat, some exp⟩)
      ∧ sub_aud_dur_claims now ⟨⟨some subject, some aud.val, some iat, some exp⟩, true⟩
        = .ok (subject, aud, exp - iat,
            ⟨some subject, some aud.val, some iat, some exp⟩) := by
  constructor
  · unfold sub_aud_dur_claims
    rw [decode_valid now _ _ _ _ hiat hexp]
    simp only [Option.getD, Option.isNone, combined_data, containsColon_append_colon,
      Bool.and_true, if_true,
      breakAtColon_append _ _ (val_noColon aud), string_eta, ofString?_val]
    rfl
  · unfold sub_aud_dur_claims
    rw [decode_valid now _ _ _ _ hiat hexp]
    simp only [Option.getD, Option.isNone, Bool.and_false, Bool.if_false_left,
      ofString?_val]
    rfl

theorem C3_witness :
    sub_aud_dur_claims 0 ⟨⟨some ("pre" ++ ":" ++ "ab:c"), none, some 0, some 600⟩, true⟩
        = .ok ("ab:c", .PreviewAsset, 600 - 0,
            ⟨some ("pre" ++ ":" ++ "ab:c"), none, some 0, some 600⟩)
      ∧ sub_aud_dur_claims 0 ⟨⟨some "ab:c", some "pre", some 0, some 600⟩, true⟩
        = .ok ("ab:c", .PreviewAsset, 600 - 0,
            ⟨some "ab:c", some "pre", some 0, some 600⟩) :=
  C3_legacy_modern_agree "ab:c" .PreviewAsset 0 600 0 (by decide) (by decide)

/-! Claim C8. -/

theorem try_redis_run_exhaust (call : Nat → Except RedisErr α) :
    ∀ (retries attempt : Nat),
      (∀ i, attempt ≤ i → i ≤ attempt + retries → call i = .error .conn) →
      try_redis_run call retries attempt = .error 500 := by
  intro retries
  induction retries with
  | zero =>
    intro attempt h
    unfold try_redis_run
    rw [h attempt le_rfl (by omega)]
  | succ r ih =>
    intro attempt h
    unfold try_redis_run
    rw [h attempt le_rfl (by omega)]
    exact ih (attempt + 1) (fun i h1 h2 => h i (by omega) (by omega))

theorem try_redis_run_other (call : Nat → Except RedisErr α) (retries attempt : Nat)
    (h : call attempt = .error .other) :
    try_redis_run call retries attempt = .error 500 := by
  cases retries with
  | zero =>
    unfold try_redis_run
    rw [h]
  | succ r =>
    unfold try_redis_run
    rw [h]

theorem try_redis_run_first_ok (call : Nat → Except RedisErr α) (retries attempt : Nat)
    (v : α) (h : call attempt = .ok v) :
    try_redis_run call retries attempt = .ok v := by
  cases retries with
  | zero =>
    unfold try_redis_run
    rw [h]
  | succ r =>
    unfold try_redis_run
    rw [h]

theorem try_redis_run_ok_sound (call : Nat → Except RedisErr α) :
    ∀ (retries attempt : Nat) (v : α),
      try_redis_run call retries attempt = .ok v →
      ∃ i, attempt ≤ i ∧ i ≤ attempt + retries ∧ call i = .ok v := by
  intro retries
  induction retries with
  | zero =>
    intro attempt v h
    unfold try_redis_run at h
    cases hc : call attempt with
    | ok w =>
      rw [hc] at h
      have hv : w = v := Except.ok.inj h
      exact ⟨attempt, le_rfl, by omega, by rw [hc, hv]⟩
    | error e =>
      rw [hc] at h
      cases e <;> exact Except.noConfusion h
  | succ r ih =>
    intro attempt v h
    unfold try_redis_run at h
    cases hc : call attempt with
    | ok w =>
      rw [hc] at h
      have hv : w = v := Except.ok.inj h
      exact ⟨attempt, le_rfl, by omega, by rw [hc, hv]⟩
    | error e =>
      rw [hc] at h
      cases e with
      | conn =>
        obtain ⟨i, h1, h2, h3⟩ := ih (attempt + 1) v h
        exact ⟨i, by omega, by omega, h3⟩
      | other => exact Except.noConfusion h

theorem try_redis_run_stable (call call' : Nat → Except RedisErr α) :
    ∀ (retries attempt : Nat),
      (∀ i, attempt ≤ i → i ≤ attempt + retries → call i = call' i) →
      try_redis_run call retries attempt = try_redis_run call' retries attempt := by
  intro retries
  induction retries with
  | zero =>
    intro attempt h
    unfold try_redis_run
    rw [h attempt le_rfl (by omega)]
  | succ r ih =>
    intro attempt h
    unfold try_redis_run
    rw [h attempt le_rfl (by omega)]
    cases call' attempt with
    | ok w => rfl
    | error e =>
      cases e with
      | conn => exact ih (attempt + 1) (fun i h1 h2 => h i (by omega) (by omega))
      | other => rfl

/-- The Option round trip in the body of persistence.get is the identity. -/
theorem get_default_id (v : Option α) :
    (match v with | some x => some x | none => none) = v := by
  cases v <;> rfl

/-- C8: the cache wrappers set and get (decorated with try_redis at its default
num_retries of 5) retry only transient ConnectionErrors, consult the store at
most six times (the initial call plus five retries; the result never depends on
later outcomes), raise HTTPException(500) once the retries are exhausted, raise
HTTPException(500) immediately on a non-transient RedisError, and return a
value only if some attempted store call actually produced it, so no failure is
swallowed and no write is silently dropped. -/
theorem C8_cache_retry_policy :
    (∀ w : Nat → Except RedisErr (Option Bool),
        (∀ i, i ≤ 5 → w i = .error .conn) → persistence.set w = .error 500)
    ∧ (∀ w : Nat → Except RedisErr (Option Bool),
        w 0 = .error .other → persistence.set w = .error 500)
    ∧ (∀ (w : Nat → Except RedisErr (Option Bool)) (v : Option Bool),
        persistence.set w = .ok v → ∃ i, i ≤ 5 ∧ w i = .ok v)
    ∧ (∀ w w' : Nat → Except RedisErr (Option Bool),
        (∀ i, i ≤ 5 → w i = w' i) → persistence.set w = persistence.set w')
    ∧ (∀ r : Nat → Except RedisErr (Option Bool),
        (∀ i, i ≤ 5 → r i = .error .conn) → persistence.get r = .error 500)
    ∧ (∀ r : Nat → Except RedisErr (Option Bool),
        r 0 = .error .other → persistence.get r = .error 500)
    ∧ (∀ (r : Nat → Except RedisErr (Option Bool)) (v : Option Bool),
        persistence.get r = .ok v → ∃ i, i ≤ 5 ∧ r i = .ok v)
    ∧ (∀ r r' : Nat → Except RedisErr (Option Bool),
        (∀ i, i ≤ 5 → r i = r' i) → persistence.get r = persistence.get r') := by
  have hget : ∀ r : Nat → Except RedisErr (Option Bool),
      persistence.get r = try_redis 5 r := by
    intro r
    unfold persistence.get
    cases try_redis 5 r with
    | ok v => simp [Except.map, get_default_id]
    | error e => simp [Except.map]
  refine ⟨?_, ?_, ?_, ?_, ?_, ?_, ?_, ?_⟩
  · intro w h
    exact try_redis_run_exhaust w 5 0 (fun i h1 h2 => h i (by omega))
  · intro w h
    exact try_redis_run_other w 5 0 h
  · intro w v h
    obtain ⟨i, h1, h2, h3⟩ := try_redis_run_ok_sound w 5 0 v h
    exact ⟨i, by omega, h3⟩
  · intro w w' h
    exact try_redis_run_stable w w' 5 0 (fun i h1 h2 => h i (by omega))
  · intro r h
    rw [hget r]
    exact try_redis_run_exhaust r 5 0 (fun i h1 h2 => h i (by omega))
  · intro r h
    rw [hget r]
    exact try_redis_run_other r 5 0 h
  · intro r v h
    rw [hget r] at h
    obtain ⟨i, h1, h2, h3⟩ := try_redis_run_ok_sound r 5 0 v h
    exact ⟨i, by omega, h3⟩
  · intro r r' h
    rw [hget r, hget r']
    exact try_redis_run_stable r r' 5 0 (fun i h1 h2 => h i (by omega))

theorem C8_witness :
    persistence.set (fun _ => .error .conn) = .error 500
      ∧ persistence.get (fun _ => (.error .other : Except RedisErr (Option Bool)))
          = .error 500 :=
  ⟨C8_cache_retry_policy.1 (fun _ => .error .conn) (fun _ _ => rfl),
   C8_cache_retry_policy.2.2.2.2.2.1 (fun _ => .error .other) rfl⟩

end Spec2Proof
